import Mathlib

/-!
Verification of the volume-snapshot lifecycle coordinator
(`internal/plugin/volumesnapshotterplugin.go`).

The Go source keeps two in-memory maps (`volumes`, `snapshots`) inside a
`VolumeSnapshotter` struct and exposes the Velero volume-snapshotter
operations.  We embed the state as association lists (Go map writes in the
source only ever insert a key that was just checked absent, so prepending is
a faithful model), the random suffix drawn by the identifier generator as an
oracle `gen : Nat → String` (one entry per draw of the retry loop), the
unbounded `for` retry loop with explicit fuel, and the external Longhorn
control-plane call as a function of the whole coordinator state, so that the
order "registry first, remote call second" is visible in the model.
-/

namespace LonghornPlugin

/-- `resource.Quantity` is opaque to this plugin; we model it as a string.
The Go zero value is modelled by `""`. -/
abbrev Quantity := String

/-- `Volume` record, as in the source: tracks volumes created by this plugin. -/
structure Volume where
  volName      : String
  volAZ        : String
  storageClass : String
  dataEngine   : String
  size         : Quantity
  deriving Repr, DecidableEq

/-- `Snapshot` record, as in the source: tracks snapshots created by this plugin. -/
structure Snapshot where
  volName : String
  volAZ   : String
  tags    : List (String × String)
  deriving Repr, DecidableEq

/-- Lookup in an association list, first binding wins (models a Go map in
which every insertion in this source is guarded by an absence check). -/
def mapLookup {α : Type} (m : List (String × α)) (k : String) : Option α :=
  match m with
  | [] => none
  | (k₁, v) :: rest => if k₁ = k then some v else mapLookup rest k

/-- The coordinator state: the configuration map and the two registry maps
of `VolumeSnapshotter` (the two client handles are external collaborators
and carry no registry state). -/
structure VolumeSnapshotter where
  config    : List (String × String)
  volumes   : List (String × Volume)
  snapshots : List (String × Snapshot)
  deriving Repr, DecidableEq

/-- The structured form of the persistent-volume descriptor: the fields of
`v1.PersistentVolume` that the source reads or writes (`pv.Name`,
`pv.Spec.StorageClassName`, `pv.Spec.Capacity`). -/
structure PersistentVolume where
  name             : String
  storageClassName : String
  capacity         : List (String × Quantity)
  deriving Repr, DecidableEq

/-- `pv.Spec.Capacity[v1.ResourceStorage]`: Go map indexing returns the zero
`Quantity` when the key is absent. -/
def capacityStorage (pv : PersistentVolume) : Quantity :=
  (mapLookup pv.capacity "storage").getD ""

/-- One iteration step of the identifier retry loop in `CreateSnapshot`
(source lines 141–148): candidate `k` is `"velero-" ++ gen k`, where `gen k`
models the value of `bsutil.GenerateName("snap")` on the `k`-th draw; a
candidate already present in the snapshot map is skipped.  The Go loop is
unbounded; `fuel` makes it total, `none` meaning the loop has not finished
within `fuel` iterations. -/
def genSnapshotID (snapshots : List (String × Snapshot)) (gen : Nat → String) :
    Nat → Nat → Option String
  | _, 0 => none
  | k, fuel + 1 =>
    if (mapLookup snapshots ("velero-" ++ gen k)).isSome then
      genSnapshotID snapshots gen (k + 1) fuel
    else
      some ("velero-" ++ gen k)

/-- The volume-registration step of `CreateSnapshot` (source lines 153–159):
remember the original volume, only required for the first time. -/
def rememberVolume (p : VolumeSnapshotter) (volumeID volumeAZ : String) :
    VolumeSnapshotter :=
  if (mapLookup p.volumes volumeID).isSome then p
  else
    { p with
      volumes := (volumeID,
        { volName := volumeID, volAZ := volumeAZ, storageClass := ""
          dataEngine := "v1", size := "" }) :: p.volumes }

/-- The registry state of `CreateSnapshot` just before the external call
(source lines 153–166): the volume registered if new, then the snapshot
record inserted under the freshly generated id. -/
def snapState (p : VolumeSnapshotter) (snapshotID volumeID volumeAZ : String)
    (tags : List (String × String)) : VolumeSnapshotter :=
  { rememberVolume p volumeID volumeAZ with
    snapshots := (snapshotID,
      { volName := volumeID, volAZ := volumeAZ, tags := tags })
        :: (rememberVolume p volumeID volumeAZ).snapshots }

/-- `CreateSnapshot` (source lines 137–186).  `remote` is the external
Longhorn control-plane call
(`lhClient.LonghornV1beta2().Snapshots("longhorn-system").Create`); it is a
function of the coordinator state at the moment of the call, so the fact
that the registry insertions happen before the call is part of the model.
Returns `none` when the identifier retry loop exhausts its fuel; otherwise
`some (r, p')` with `r` the Go return value (`snapshotID` or the remote
error) and `p'` the final state. -/
def createSnapshot (remote : VolumeSnapshotter → Except String Unit)
    (gen : Nat → String) (fuel : Nat) (p : VolumeSnapshotter)
    (volumeID volumeAZ : String) (tags : List (String × String)) :
    Option (Except String String × VolumeSnapshotter) :=
  match genSnapshotID p.snapshots gen 0 fuel with
  | none => none
  | some snapshotID =>
    match remote (snapState p snapshotID volumeID volumeAZ tags) with
    | .ok _ => some (.ok snapshotID, snapState p snapshotID volumeID volumeAZ tags)
    | .error e => some (.error e, snapState p snapshotID volumeID volumeAZ tags)

/-- N sequential `CreateSnapshot` calls with an always-succeeding external
call (`gens i` is the oracle of random draws used by the `i`-th call);
returns the list of returned snapshot ids and the final state. -/
def createMany (gens : Nat → Nat → String) (fuel : Nat) :
    List (String × String × List (String × String)) → VolumeSnapshotter →
      Nat → Option (List String × VolumeSnapshotter)
  | [], p, _ => some ([], p)
  | (volumeID, volumeAZ, tags) :: rest, p, i =>
    match createSnapshot (fun _ => .ok ()) (gens i) fuel p volumeID volumeAZ tags with
    | some (.ok sid, p₁) =>
      match createMany gens fuel rest p₁ (i + 1) with
      | some (sids, p₂) => some (sid :: sids, p₂)
      | none => none
    | _ => none

/-- `DeleteSnapshot` (source lines 189–193): logs and returns `nil`; the
state is untouched and no external call is made (the definition takes no
control-plane argument because the source issues no such call). -/
def deleteSnapshot (p : VolumeSnapshotter) (snapshotID : String) :
    Except String Unit × VolumeSnapshotter :=
  (.ok (), p)

/-- The volume-registration step of `GetVolumeID` (source lines 208–215):
insert a Volume built from the descriptor, only if the name is new. -/
def rememberVolumeFromPV (p : VolumeSnapshotter) (pv : PersistentVolume) :
    VolumeSnapshotter :=
  if (mapLookup p.volumes pv.name).isSome then p
  else
    { p with
      volumes := (pv.name,
        { volName := pv.name, volAZ := "", storageClass := pv.storageClassName
          dataEngine := "v1", size := capacityStorage pv }) :: p.volumes }

/-- `GetVolumeID` (source lines 196–218), after the unstructured conversion
has produced the structured descriptor.  Empty name or storage class yields
the empty identifier with no error; otherwise the volume is registered if
not already present and the name is returned. -/
def getVolumeID (p : VolumeSnapshotter) (pv : PersistentVolume) :
    Except String String × VolumeSnapshotter :=
  if pv.name = "" ∨ pv.storageClassName = "" then
    (.ok "", p)
  else
    (.ok pv.name, rememberVolumeFromPV p pv)

/-- `SetVolumeID` (source lines 221–241), after the unstructured conversion.
The registry state is not modified; the result is either the NotFound-class
error (`"volume ... does not exist in the group"`) or the descriptor with
its name overwritten by the registry's recorded name. -/
def setVolumeID (p : VolumeSnapshotter) (pv : PersistentVolume)
    (volumeID : String) : Except String PersistentVolume :=
  match mapLookup p.volumes volumeID with
  | none => .error ("volume " ++ volumeID ++ " does not exist in the group")
  | some vol => .ok { pv with name := vol.volName }

/-- `CreateVolumeFromSnapshot` (source lines 115–120): the very first
statement dereferences `*iops`, so a `none` (nil) pointer is a panic,
modelled as `none`; with a non-nil pointer the function returns the empty
volume id, no error, and the untouched state. -/
def createVolumeFromSnapshot (p : VolumeSnapshotter)
    (snapshotID volumeType volumeAZ : String) (iops : Option Int) :
    Option (String × VolumeSnapshotter) :=
  match iops with
  | none => none
  | some _ => some ("", p)

/-- `GetVolumeInfo` (source lines 124–127): constant answer. -/
def getVolumeInfo (p : VolumeSnapshotter) (volumeID volumeAZ : String) :
    String × Option Int × Except String Unit :=
  ("longhorn-volume", none, .ok ())

/-- `IsVolumeReady` (source lines 130–133): constant answer. -/
def isVolumeReady (p : VolumeSnapshotter) (volumeID volumeAZ : String) :
    Bool × Except String Unit :=
  (true, .ok ())

/-! ## Concrete instances used to exercise the operations -/

/-- An always-succeeding external control-plane call. -/
def remoteOK : VolumeSnapshotter → Except String Unit := fun _ => .ok ()

/-- An always-failing external control-plane call. -/
def remoteFail : VolumeSnapshotter → Except String Unit := fun _ => .error "boom"

/-- A draw oracle that always yields the suffix `snap-a`. -/
def genA : Nat → String := fun _ => "snap-a"

/-- Per-call draw oracles: call 0 draws `snap-a`, later calls draw `snap-b`. -/
def gensEx : Nat → Nat → String := fun i _ => if i = 0 then "snap-a" else "snap-b"

/-- The freshly initialized coordinator: both registry maps empty. -/
def pEmpty : VolumeSnapshotter := { config := [], volumes := [], snapshots := [] }

/-- The Volume record `CreateSnapshot` registers for volume `pv-1` in zone `z`. -/
def volNew1 : Volume :=
  { volName := "pv-1", volAZ := "z", storageClass := "", dataEngine := "v1", size := "" }

/-- The Snapshot record for a snapshot of `pv-1` in zone `z` with no tags. -/
def snapNew1 : Snapshot := { volName := "pv-1", volAZ := "z", tags := [] }

/-- The state after one `createSnapshot` call for `pv-1` from `pEmpty`. -/
def pAfterCreate : VolumeSnapshotter :=
  { config := [], volumes := [("pv-1", volNew1)],
    snapshots := [("velero-snap-a", snapNew1)] }

/-- The Volume record `GetVolumeID` registers from the descriptor `pv1`. -/
def volRec1 : Volume :=
  { volName := "pv-1", volAZ := "", storageClass := "fast", dataEngine := "v1"
    size := "10Gi" }

/-- A state in which volume `pv-1` is already registered. -/
def pReg : VolumeSnapshotter :=
  { config := [], volumes := [("pv-1", volRec1)], snapshots := [] }

/-- The state after a `createSnapshot` call for `pv-2` starting from `pReg`. -/
def pReg2 : VolumeSnapshotter :=
  { config := [],
    volumes := [("pv-2",
      { volName := "pv-2", volAZ := "z", storageClass := "", dataEngine := "v1"
        size := "" }), ("pv-1", volRec1)],
    snapshots := [("velero-snap-a", { volName := "pv-2", volAZ := "z", tags := [] })] }

/-- A well-formed descriptor: name `pv-1`, storage class `fast`, capacity `10Gi`. -/
def pv1 : PersistentVolume :=
  { name := "pv-1", storageClassName := "fast", capacity := [("storage", "10Gi")] }

/-- A descriptor with an empty storage class. -/
def pvNoSC : PersistentVolume :=
  { name := "pv-1", storageClassName := "", capacity := [] }

/-- Two create requests for `pv-1` and `pv-2`, both in zone `z`, no tags. -/
def reqsEx : List (String × String × List (String × String)) :=
  [("pv-1", "z", []), ("pv-2", "z", [])]

/-- The state after running both requests of `reqsEx` from `pEmpty`. -/
def pManyEnd : VolumeSnapshotter :=
  { config := [],
    volumes := [("pv-2",
      { volName := "pv-2", volAZ := "z", storageClass := "", dataEngine := "v1"
        size := "" }), ("pv-1", volNew1)],
    snapshots := [("velero-snap-b", { volName := "pv-2", volAZ := "z", tags := [] }),
      ("velero-snap-a", snapNew1)] }

/-! ## Supporting lemmas -/

theorem mapLookup_cons {α : Type} (k₁ : String) (v : α) (m : List (String × α))
    (k : String) :
    mapLookup ((k₁, v) :: m) k = if k₁ = k then some v else mapLookup m k := rfl

theorem rememberVolume_snapshots (p : VolumeSnapshotter) (volumeID volumeAZ : String) :
    (rememberVolume p volumeID volumeAZ).snapshots = p.snapshots := by
  unfold rememberVolume
  split <;> rfl

theorem rememberVolume_preserves (p : VolumeSnapshotter) (volumeID volumeAZ : String)
    (name : String) (vol : Volume) (hv : mapLookup p.volumes name = some vol) :
    mapLookup (rememberVolume p volumeID volumeAZ).volumes name = some vol := by
  unfold rememberVolume
  split
  · exact hv
  · rename_i hnone
    rw [mapLookup_cons]
    by_cases hvn : volumeID = name
    · subst hvn
      rw [hv] at hnone
      simp at hnone
    · rw [if_neg hvn]
      exact hv

theorem rememberVolume_inserts (p : VolumeSnapshotter) (volumeID volumeAZ : String)
    (hnone : mapLookup p.volumes volumeID = none) :
    mapLookup (rememberVolume p volumeID volumeAZ).volumes volumeID =
      some { volName := volumeID, volAZ := volumeAZ, storageClass := ""
             dataEngine := "v1", size := "" } := by
  unfold rememberVolume
  rw [hnone]
  simp [mapLookup_cons]

theorem snapState_snapshots_lookup (p : VolumeSnapshotter)
    (snapshotID volumeID volumeAZ : String) (tags : List (String × String))
    (s : String) :
    mapLookup (snapState p snapshotID volumeID volumeAZ tags).snapshots s =
      if snapshotID = s then
        some { volName := volumeID, volAZ := volumeAZ, tags := tags }
      else mapLookup p.snapshots s := by
  unfold snapState
  rw [mapLookup_cons, rememberVolume_snapshots]

theorem snapState_volumes (p : VolumeSnapshotter)
    (snapshotID volumeID volumeAZ : String) (tags : List (String × String)) :
    (snapState p snapshotID volumeID volumeAZ tags).volumes =
      (rememberVolume p volumeID volumeAZ).volumes := rfl

theorem genSnapshotID_spec (snapshots : List (String × Snapshot))
    (gen : Nat → String) (k fuel : Nat) (sid : String)
    (h : genSnapshotID snapshots gen k fuel = some sid) :
    mapLookup snapshots sid = none ∧ ∃ j, sid = "velero-" ++ gen j := by
  induction fuel generalizing k with
  | zero => simp [genSnapshotID] at h
  | succ n ih =>
    rw [genSnapshotID] at h
    by_cases hc : (mapLookup snapshots ("velero-" ++ gen k)).isSome
    · rw [if_pos hc] at h
      exact ih (k + 1) h
    · rw [if_neg hc] at h
      injection h with h
      subst h
      refine ⟨?_, k, rfl⟩
      cases hm : mapLookup snapshots ("velero-" ++ gen k) with
      | none => rfl
      | some v => rw [hm] at hc; simp at hc

theorem createSnapshot_inv (remote : VolumeSnapshotter → Except String Unit)
    (gen : Nat → String) (fuel : Nat) (p : VolumeSnapshotter)
    (volumeID volumeAZ : String) (tags : List (String × String))
    (r : Except String String) (p' : VolumeSnapshotter)
    (h : createSnapshot remote gen fuel p volumeID volumeAZ tags = some (r, p')) :
    ∃ sid,
      genSnapshotID p.snapshots gen 0 fuel = some sid ∧
      p' = snapState p sid volumeID volumeAZ tags ∧
      ((remote p' = .ok () ∧ r = .ok sid) ∨
        (∃ e, remote p' = .error e ∧ r = .error e)) := by
  unfold createSnapshot at h
  cases hg : genSnapshotID p.snapshots gen 0 fuel with
  | none => rw [hg] at h; simp at h
  | some sid =>
    rw [hg] at h
    dsimp only at h
    refine ⟨sid, rfl, ?_⟩
    cases hr : remote (snapState p sid volumeID volumeAZ tags) with
    | ok u =>
      rw [hr] at h
      injection h with h
      injection h with h₁ h₂
      exact ⟨h₂.symm, Or.inl ⟨h₂.symm ▸ hr, h₁.symm⟩⟩
    | error e =>
      rw [hr] at h
      injection h with h
      injection h with h₁ h₂
      exact ⟨h₂.symm, Or.inr ⟨e, h₂.symm ▸ hr, h₁.symm⟩⟩

theorem rememberVolumeFromPV_preserves (p : VolumeSnapshotter)
    (pv : PersistentVolume) (name : String) (vol : Volume)
    (hv : mapLookup p.volumes name = some vol) :
    mapLookup (rememberVolumeFromPV p pv).volumes name = some vol := by
  unfold rememberVolumeFromPV
  split
  · exact hv
  · rename_i hnone
    rw [mapLookup_cons]
    by_cases hvn : pv.name = name
    · subst hvn
      rw [hv] at hnone
      simp at hnone
    · rw [if_neg hvn]
      exact hv

theorem rememberVolumeFromPV_lookup_self (p : VolumeSnapshotter)
    (pv : PersistentVolume)
    (hwf : ∀ v, mapLookup p.volumes pv.name = some v → v.volName = pv.name) :
    ∃ v, mapLookup (rememberVolumeFromPV p pv).volumes pv.name = some v ∧
      v.volName = pv.name := by
  unfold rememberVolumeFromPV
  split
  · rename_i hs
    cases hm : mapLookup p.volumes pv.name with
    | none => rw [hm] at hs; exact absurd hs (by simp)
    | some v => exact ⟨v, rfl, hwf v hm⟩
  · rw [mapLookup_cons, if_pos rfl]
    exact ⟨_, rfl, rfl⟩

theorem createMany_inv (gens : Nat → Nat → String) (fuel : Nat) :
    ∀ (reqs : List (String × String × List (String × String)))
      (p : VolumeSnapshotter) (i : Nat) (sids : List String)
      (p' : VolumeSnapshotter),
      createMany gens fuel reqs p i = some (sids, p') →
      sids.Nodup ∧
      (∀ s ∈ sids, mapLookup p.snapshots s = none ∧ ∃ t, s = "velero-" ++ t) ∧
      (∀ s, (mapLookup p.snapshots s).isSome →
        (mapLookup p'.snapshots s).isSome) := by
  intro reqs
  induction reqs with
  | nil =>
    intro p i sids p' h
    unfold createMany at h
    injection h with h
    injection h with h₁ h₂
    subst h₁
    subst h₂
    exact ⟨List.nodup_nil, by simp, fun s hs => hs⟩
  | cons req rest ih =>
    intro p i sids p' h
    obtain ⟨volumeID, volumeAZ, tags⟩ := req
    unfold createMany at h
    cases hc : createSnapshot (fun _ => .ok ()) (gens i) fuel p volumeID volumeAZ tags with
    | none => rw [hc] at h; exact absurd h (by simp)
    | some rp =>
      obtain ⟨r, p₁⟩ := rp
      rw [hc] at h
      cases r with
      | error e => exact absurd h (by simp)
      | ok sid =>
        dsimp only at h
        cases hm : createMany gens fuel rest p₁ (i + 1) with
        | none => rw [hm] at h; exact absurd h (by simp)
        | some sp =>
          obtain ⟨sids₁, p₂⟩ := sp
          rw [hm] at h
          dsimp only at h
          injection h with h
          injection h with h₁ h₂
          subst h₁
          subst h₂
          obtain ⟨sid', hg, hp₁, hrem⟩ :=
            createSnapshot_inv _ _ _ _ _ _ _ _ _ hc
          rcases hrem with ⟨_, hok⟩ | ⟨e, _, habs⟩
          · injection hok with hsid
            subst hsid
            obtain ⟨hfresh, j, hpre⟩ :=
              genSnapshotID_spec p.snapshots (gens i) 0 fuel sid hg
            subst hp₁
            obtain ⟨hpair, hfreshl, hmono⟩ := ih _ _ _ _ hm
            have hlook : ∀ s,
                mapLookup (snapState p sid volumeID volumeAZ tags).snapshots s =
                  if sid = s then
                    some { volName := volumeID, volAZ := volumeAZ, tags := tags }
                  else mapLookup p.snapshots s :=
              fun s => snapState_snapshots_lookup p sid volumeID volumeAZ tags s
            refine ⟨List.Pairwise.cons ?_ hpair, ?_, ?_⟩
            · intro a ha hEq
              have hx := (hfreshl a ha).1
              rw [hlook a, if_pos hEq] at hx
              exact absurd hx (by simp)
            · intro s hs
              rw [List.mem_cons] at hs
              rcases hs with rfl | hs
              · exact ⟨hfresh, gens i j, hpre⟩
              · have hn := (hfreshl s hs).1
                rw [hlook s] at hn
                by_cases hss : sid = s
                · rw [if_pos hss] at hn
                  exact absurd hn (by simp)
                · rw [if_neg hss] at hn
                  exact ⟨hn, (hfreshl s hs).2⟩
            · intro s hsome
              refine hmono s ?_
              rw [hlook s]
              by_cases hss : sid = s
              · rw [if_pos hss]; rfl
              · rw [if_neg hss]; exact hsome
          · exact Except.noConfusion habs

/-! ## Claim theorems -/

/-- C1: In `createSnapshot`, the registry's snapshot map is updated with the
new snapshot record before the external control-plane call is issued (the
call observes the final state `p'`), and if the external call fails the
operation returns the failure to the caller while the snapshot record and
any newly registered volume are retained, not rolled back; existing volume
records are likewise retained. -/
theorem createSnapshot_registry_retained_on_failure
    (remote : VolumeSnapshotter → Except String Unit) (gen : Nat → String)
    (fuel : Nat) (p : VolumeSnapshotter) (volumeID volumeAZ : String)
    (tags : List (String × String)) (e : String) (p' : VolumeSnapshotter)
    (h : createSnapshot remote gen fuel p volumeID volumeAZ tags =
      some (.error e, p')) :
    remote p' = .error e ∧
    (∃ sid, mapLookup p.snapshots sid = none ∧
      mapLookup p'.snapshots sid =
        some { volName := volumeID, volAZ := volumeAZ, tags := tags }) ∧
    (mapLookup p.volumes volumeID = none →
      mapLookup p'.volumes volumeID =
        some { volName := volumeID, volAZ := volumeAZ, storageClass := ""
               dataEngine := "v1", size := "" }) ∧
    (∀ name vol, mapLookup p.volumes name = some vol →
      mapLookup p'.volumes name = some vol) := by
  obtain ⟨sid, hg, hp', hrem⟩ := createSnapshot_inv _ _ _ _ _ _ _ _ _ h
  obtain ⟨hfresh, _⟩ := genSnapshotID_spec p.snapshots gen 0 fuel sid hg
  rcases hrem with ⟨_, habs⟩ | ⟨e', hre, heq⟩
  · exact Except.noConfusion habs
  · injection heq with he
    subst he
    subst hp'
    refine ⟨hre, ⟨sid, hfresh, ?_⟩, ?_, ?_⟩
    · rw [snapState_snapshots_lookup, if_pos rfl]
    · intro hnone
      rw [snapState_volumes]
      exact rememberVolume_inserts p volumeID volumeAZ hnone
    · intro name vol hv
      rw [snapState_volumes]
      exact rememberVolume_preserves p volumeID volumeAZ name vol hv

theorem createSnapshot_registry_retained_on_failure_witness :
    remoteFail pAfterCreate = .error "boom" ∧
    mapLookup pAfterCreate.volumes "pv-1" = some volNew1 :=
  ⟨(createSnapshot_registry_retained_on_failure remoteFail genA 1 pEmpty
      "pv-1" "z" [] "boom" pAfterCreate (by rfl)).1,
    (createSnapshot_registry_retained_on_failure remoteFail genA 1 pEmpty
      "pv-1" "z" [] "boom" pAfterCreate (by rfl)).2.2.1 rfl⟩

/-- C2: every snapshot id returned by `createSnapshot` carries the fixed
`velero-` namespace tag and was unused in the registry before the call;
hence for any run of sequential `createSnapshot` calls with a succeeding
external call, the returned ids are pairwise distinct. -/
theorem createMany_ids_pairwise_distinct (gens : Nat → Nat → String)
    (fuel : Nat) (reqs : List (String × String × List (String × String)))
    (p : VolumeSnapshotter) (sids : List String) (p' : VolumeSnapshotter)
    (h : createMany gens fuel reqs p 0 = some (sids, p')) :
    sids.Nodup ∧
    ∀ s ∈ sids, (∃ t, s = "velero-" ++ t) ∧ mapLookup p.snapshots s = none := by
  obtain ⟨h₁, h₂, _⟩ := createMany_inv gens fuel reqs p 0 sids p' h
  exact ⟨h₁, fun s hs => ⟨(h₂ s hs).2, (h₂ s hs).1⟩⟩

theorem createMany_ids_pairwise_distinct_witness :
    List.Nodup ["velero-snap-a", "velero-snap-b"] :=
  (createMany_ids_pairwise_distinct gensEx 1 reqsEx pEmpty
    ["velero-snap-a", "velero-snap-b"] pManyEnd (by rfl)).1

/-- C3: volume registration is first-write-wins — once a Volume record
exists under a name, a later `createSnapshot` or `getVolumeID` call (with
any arguments) leaves that record unchanged. -/
theorem volume_first_write_wins (p : VolumeSnapshotter) (name : String)
    (v : Volume) (hv : mapLookup p.volumes name = some v) :
    (∀ remote gen fuel volumeID volumeAZ tags r p',
      createSnapshot remote gen fuel p volumeID volumeAZ tags = some (r, p') →
      mapLookup p'.volumes name = some v) ∧
    (∀ pv, mapLookup (getVolumeID p pv).2.volumes name = some v) := by
  constructor
  · intro remote gen fuel volumeID volumeAZ tags r p' h
    obtain ⟨sid, hg, hp', _⟩ := createSnapshot_inv _ _ _ _ _ _ _ _ _ h
    subst hp'
    rw [snapState_volumes]
    exact rememberVolume_preserves p volumeID volumeAZ name v hv
  · intro pv
    unfold getVolumeID
    split
    · exact hv
    · exact rememberVolumeFromPV_preserves p pv name v hv

theorem volume_first_write_wins_witness :
    mapLookup pReg2.volumes "pv-1" = some volRec1 ∧
    mapLookup (getVolumeID pReg pv1).2.volumes "pv-1" = some volRec1 :=
  ⟨(volume_first_write_wins pReg "pv-1" volRec1 rfl).1 remoteOK genA 1
      "pv-2" "z" [] (.ok "velero-snap-a") pReg2 (by rfl),
    (volume_first_write_wins pReg "pv-1" volRec1 rfl).2 pv1⟩

/-- C4: `setVolumeID` fails with the NotFound-class error when the volume
id has no registry entry (and, being pure, modifies neither the registry
nor the supplied descriptor); when the id is registered it returns the
descriptor with its name overwritten by the registry's recorded name. -/
theorem setVolumeID_lookup_spec (p : VolumeSnapshotter)
    (pv : PersistentVolume) (volumeID : String) :
    (mapLookup p.volumes volumeID = none →
      setVolumeID p pv volumeID =
        .error ("volume " ++ volumeID ++ " does not exist in the group")) ∧
    (∀ vol, mapLookup p.volumes volumeID = some vol →
      setVolumeID p pv volumeID = .ok { pv with name := vol.volName }) := by
  constructor
  · intro h
    unfold setVolumeID
    rw [h]
  · intro vol h
    unfold setVolumeID
    rw [h]

theorem setVolumeID_lookup_spec_witness :
    setVolumeID pEmpty pv1 "does-not-exist" =
      .error ("volume " ++ "does-not-exist" ++ " does not exist in the group") ∧
    setVolumeID pReg pv1 "pv-1" = .ok { pv1 with name := "pv-1" } :=
  ⟨(setVolumeID_lookup_spec pEmpty pv1 "does-not-exist").1 rfl,
    (setVolumeID_lookup_spec pReg pv1 "pv-1").2 volRec1 rfl⟩

/-- C5: `getVolumeID` on a descriptor with empty name or empty storage
class returns the empty identifier with no error and an unchanged registry;
on a descriptor with both fields non-empty it returns the name unchanged
and registers the Volume idempotently (no-op when already present, the
descriptor-derived record inserted when absent). -/
theorem getVolumeID_sentinel_and_registration (p : VolumeSnapshotter)
    (pv : PersistentVolume) :
    (pv.name = "" ∨ pv.storageClassName = "" →
      getVolumeID p pv = (.ok "", p)) ∧
    (pv.name ≠ "" → pv.storageClassName ≠ "" →
      (getVolumeID p pv).1 = .ok pv.name ∧
      ((mapLookup p.volumes pv.name).isSome → (getVolumeID p pv).2 = p) ∧
      (mapLookup p.volumes pv.name = none →
        (getVolumeID p pv).2.volumes =
          (pv.name,
            { volName := pv.name, volAZ := "", storageClass := pv.storageClassName
              dataEngine := "v1", size := capacityStorage pv }) :: p.volumes)) := by
  constructor
  · intro h
    unfold getVolumeID
    rw [if_pos h]
  · intro h₁ h₂
    have hcond : ¬(pv.name = "" ∨ pv.storageClassName = "") := by
      rintro (h | h)
      exacts [h₁ h, h₂ h]
    unfold getVolumeID
    rw [if_neg hcond]
    refine ⟨rfl, ?_, ?_⟩
    · intro hsome
      dsimp only
      unfold rememberVolumeFromPV
      rw [if_pos hsome]
    · intro hnone
      dsimp only
      unfold rememberVolumeFromPV
      rw [hnone]
      rfl

theorem getVolumeID_sentinel_and_registration_witness :
    getVolumeID pEmpty pvNoSC = (.ok "", pEmpty) ∧
    (getVolumeID pEmpty pv1).1 = .ok "pv-1" ∧
    (getVolumeID pEmpty pv1).2.volumes = [("pv-1", volRec1)] :=
  ⟨(getVolumeID_sentinel_and_registration pEmpty pvNoSC).1 (Or.inr rfl),
    ((getVolumeID_sentinel_and_registration pEmpty pv1).2
      (by decide) (by decide)).1,
    ((getVolumeID_sentinel_and_registration pEmpty pv1).2
      (by decide) (by decide)).2.2 rfl⟩

/-- C6: identifier round trip — for a descriptor with non-empty name and
storage class (over a registry whose record for that name, if any, records
that very name, as every registry insertion in this program does),
`getVolumeID` returns the descriptor's name, and `setVolumeID` with that
identifier yields a descriptor whose name equals the original name. -/
theorem getVolumeID_setVolumeID_roundtrip (p : VolumeSnapshotter)
    (pv : PersistentVolume) (hname : pv.name ≠ "")
    (hsc : pv.storageClassName ≠ "")
    (hwf : ∀ v, mapLookup p.volumes pv.name = some v → v.volName = pv.name) :
    (getVolumeID p pv).1 = .ok pv.name ∧
    Except.map PersistentVolume.name
      (setVolumeID (getVolumeID p pv).2 pv pv.name) = .ok pv.name := by
  have hcond : ¬(pv.name = "" ∨ pv.storageClassName = "") := by
    rintro (h | h)
    exacts [hname h, hsc h]
  obtain ⟨v, hv, hvn⟩ := rememberVolumeFromPV_lookup_self p pv hwf
  constructor
  · unfold getVolumeID
    rw [if_neg hcond]
  · unfold getVolumeID
    rw [if_neg hcond]
    dsimp only
    unfold setVolumeID
    rw [hv]
    dsimp only [Except.map]
    rw [hvn]

theorem getVolumeID_setVolumeID_roundtrip_witness :
    (getVolumeID pEmpty pv1).1 = .ok "pv-1" ∧
    Except.map PersistentVolume.name
      (setVolumeID (getVolumeID pEmpty pv1).2 pv1 "pv-1") = .ok "pv-1" :=
  getVolumeID_setVolumeID_roundtrip pEmpty pv1 (by decide) (by decide)
    (fun v h => Option.noConfusion h)

/-- C7: snapshot metadata integrity — when `createSnapshot` succeeds, the
registry's snapshot record under the returned id has source volume name
equal to the requested volume id, availability zone copied from the
request, and the supplied tags. -/
theorem createSnapshot_records_metadata
    (remote : VolumeSnapshotter → Except String Unit) (gen : Nat → String)
    (fuel : Nat) (p : VolumeSnapshotter) (volumeID volumeAZ : String)
    (tags : List (String × String)) (sid : String) (p' : VolumeSnapshotter)
    (h : createSnapshot remote gen fuel p volumeID volumeAZ tags =
      some (.ok sid, p')) :
    mapLookup p'.snapshots sid =
      some { volName := volumeID, volAZ := volumeAZ, tags := tags } := by
  obtain ⟨sid', hg, hp', hrem⟩ := createSnapshot_inv _ _ _ _ _ _ _ _ _ h
  rcases hrem with ⟨_, hok⟩ | ⟨e, _, habs⟩
  · injection hok with hs
    subst hs
    subst hp'
    rw [snapState_snapshots_lookup, if_pos rfl]
  · exact Except.noConfusion habs

theorem createSnapshot_records_metadata_witness :
    mapLookup pAfterCreate.snapshots "velero-snap-a" = some snapNew1 :=
  createSnapshot_records_metadata remoteOK genA 1 pEmpty "pv-1" "z" []
    "velero-snap-a" pAfterCreate (by rfl)

/-- C8: `deleteSnapshot` is a pure acknowledgment — for every snapshot id
it returns success and the coordinator state unchanged (the definition
takes no control-plane argument because the source issues no such call). -/
theorem deleteSnapshot_pure_ack (p : VolumeSnapshotter) (snapshotID : String) :
    deleteSnapshot p snapshotID = (.ok (), p) := rfl

/-- C10: `createVolumeFromSnapshot` dereferences its iops pointer before
any other work — a nil pointer is a panic (`none`) — and under a non-nil
pointer it returns the empty volume id, no error, and the unchanged
state. -/
theorem createVolumeFromSnapshot_iops_deref (p : VolumeSnapshotter)
    (snapshotID volumeType volumeAZ : String) :
    createVolumeFromSnapshot p snapshotID volumeType volumeAZ none = none ∧
    ∀ n : Int, createVolumeFromSnapshot p snapshotID volumeType volumeAZ
      (some n) = some ("", p) :=
  ⟨rfl, fun _ => rfl⟩

end LonghornPlugin
